import Mathlib

/-!
Verification development for the flask_simple_jsonrpc dispatcher
(src/simple_jsonrpc.py). The Python module is shallowly embedded:
JSON values become an inductive type, Python truthiness is made explicit,
handlers are functions returning `Except` (an exception is an `error`
value), and the dispatcher `process_request`, the batch loop of
`prepare_request`, the introspection listing and the dynamic client are
translated as executable Lean functions.
-/

namespace SimpleJsonRpc

/-- A decoded JSON value, as produced by `json.loads`. -/
inductive JVal where
  | null
  | bool (b : Bool)
  | num (n : Int)
  | str (s : String)
  | arr (elems : List JVal)
  | obj (fields : List (String × JVal))

/-- Python truthiness of a decoded JSON value (`bool(v)`): `None`, `False`,
`0`, `""`, `[]` and `\x7b\x7d` are falsy, everything else is truthy. -/
def truthy : JVal → Bool
  | .null => false
  | .bool b => b
  | .num n => n != 0
  | .str s => s != ""
  | .arr xs => !xs.isEmpty
  | .obj fs => !fs.isEmpty

/-- The `SimpleJsonRpcError` exception: a message and a numeric code. -/
structure SimpleJsonRpcError where
  message : String
  code : Int

/-- The wire error object shape produced by `json_rpc_format`. -/
structure ErrObj where
  code : Int
  message : String

/-- `SimpleJsonRpcError.json_rpc_format`: the `\x7b code, message \x7d`
dictionary attached to an error response. -/
def SimpleJsonRpcError.json_rpc_format (e : SimpleJsonRpcError) : ErrObj :=
  ⟨e.code, e.message⟩

/-- `SimpleJsonRpcServer.__expand_params`: `None`/falsy params give
`([], \x7b\x7d)`, a list gives positional args, a dict gives keyword args,
anything else raises `SimpleJsonRpcError` with code -32602. -/
def expand_params (params : JVal) :
    Except SimpleJsonRpcError (List JVal × List (String × JVal)) :=
  if truthy params = false then .ok ([], [])
  else
    match params with
    | .arr xs => .ok (xs, [])
    | .obj fs => .ok ([], fs)
    | _ => .error ⟨"Invalid method parameters", -32602⟩

/-- A Python exception escaping a handler: either the module's own
`SimpleJsonRpcError` or any other exception, carried as the diagnostic
trace that `traceback.format_exc()` renders for it. -/
inductive PyExc where
  | rpcErr (e : SimpleJsonRpcError)
  | other (trace : String)

/-- What a handler call produces when it returns: an ordinary JSON value,
or a ready-made flask `Response` (the pass-through escape hatch). -/
inductive HandlerOut where
  | val (v : JVal)
  | flaskResponse (body : String)

/-- A registered handler: a callable taking positional and keyword
arguments; raising is modelled by the `Except` error case. -/
abbrev Handler := List JVal → List (String × JVal) → Except PyExc HandlerOut

/-- A decoded request object (a Python dict from `json.loads`). -/
abbrev Req := List (String × JVal)

/-- `items.get(key)`: dictionary lookup, `None` when the key is absent. -/
def jget (items : Req) (key : String) : JVal :=
  match items.find? (fun p => p.1 == key) with
  | some p => p.2
  | none => .null

mutual

/-- Python `repr` of a decoded JSON value (used by `str(items)` inside the
invalid-request diagnostic message). -/
def pyRepr : JVal → String
  | .null => "None"
  | .bool true => "True"
  | .bool false => "False"
  | .num n => toString n
  | .str s => "\x27" ++ s ++ "\x27"
  | .arr xs => "[" ++ String.intercalate ", " (pyReprElems xs) ++ "]"
  | .obj fs => "\x7b" ++ String.intercalate ", " (pyReprFields fs) ++ "\x7d"

/-- `repr` of each element of a JSON array. -/
def pyReprElems : List JVal → List String
  | [] => []
  | x :: xs => pyRepr x :: pyReprElems xs

/-- `repr` of each `key: value` member of a JSON object. -/
def pyReprFields : List (String × JVal) → List String
  | [] => []
  | p :: ps => ("\x27" ++ p.1 ++ "\x27: " ++ pyRepr p.2) :: pyReprFields ps

end

/-- Python `str` of a decoded JSON value (`format` uses it): a string
renders as itself, everything else as its `repr`. -/
def pyStr : JVal → String
  | .str s => s
  | v => pyRepr v

/-- The presence check on line 90:
`all([args or kwargs, handler_name, protocol, tid])`. -/
def valid_request (args : List JVal) (kwargs : List (String × JVal))
    (handler_name protocol tid : JVal) : Bool :=
  (!args.isEmpty || !kwargs.isEmpty) && truthy handler_name &&
    truthy protocol && truthy tid

/-- `handler_name in self.urls` followed by `self.urls[handler_name]`:
exact string lookup in the registry; a non-string method name is never a
key of the string-keyed dict. -/
def lookup_handler (urls : List (String × Handler)) (handler_name : JVal) :
    Option Handler :=
  match handler_name with
  | .str s => (urls.find? (fun p => p.1 == s)).map (fun p => p.2)
  | _ => none

/-- The response dict built at the end of `process_request`:
`\x7b protocol, tid, action, method, result \x7d` plus an optional
`error` member. -/
structure RpcResp where
  protocol : JVal
  tid : JVal
  action : JVal
  method : JVal
  result : JVal
  error : Option ErrObj

/-- The value `process_request` returns: either a handler-supplied flask
`Response` passed through unchanged, or the assembled envelope dict. -/
inductive ProcOut where
  | raw (body : String)
  | envelope (resp : RpcResp)

/-- `SimpleJsonRpcServer.process_request`, with the `try`/`except` blocks
unrolled: params are expanded first (an expansion failure leaves
`handler_name`, `protocol` and `tid` at their initial `None`), then the
presence check, the registry lookup, and the handler call whose exceptions
are caught (-32603 for anything that is not a `SimpleJsonRpcError`). -/
def process_request (urls : List (String × Handler)) (items : Req) : ProcOut :=
  match expand_params (jget items "params") with
  | .error e =>
      .envelope ⟨.null, .null, .null, .null, .null, some e.json_rpc_format⟩
  | .ok (args, kwargs) =>
      let handler_name := jget items "method"
      let protocol := jget items "version"
      let tid := jget items "id"
      if !valid_request args kwargs handler_name protocol tid then
        .envelope ⟨protocol, tid, .null, handler_name, .null,
          some ⟨-32600,
            "JSON-RPC: Invalid request parameters:" ++ pyRepr (.obj items)⟩⟩
      else
        match lookup_handler urls handler_name with
        | none =>
            .envelope ⟨protocol, tid, .null, handler_name, .null,
              some ⟨-32601,
                "JSON-RPC: Method \"" ++ pyStr handler_name ++ "\" not found"⟩⟩
        | some handler =>
            match handler args kwargs with
            | .ok (.val v) =>
                .envelope ⟨protocol, tid, .null, handler_name, v, none⟩
            | .ok (.flaskResponse body) => .raw body
            | .error (.rpcErr e) =>
                .envelope ⟨protocol, tid, .null, handler_name, .null,
                  some e.json_rpc_format⟩
            | .error (.other trace) =>
                .envelope ⟨protocol, tid, .null, handler_name, .null,
                  some ⟨-32603, trace⟩⟩

/-- The error code carried by a response, when one is. -/
def err_code : ProcOut → Option Int
  | .raw _ => none
  | .envelope r => r.error.map (fun e => e.code)

/-- The batch branch of `prepare_request`: one `process_request` per array
element, results appended in array order. -/
def batch_process (urls : List (String × Handler)) (items : List Req) :
    List ProcOut :=
  items.map (process_request urls)

/-- The diagnostic trace Python produces when `ping` is called without a
binding for its keyword-only parameter `kwargs`. -/
def ping_missing_kwargs_trace : String :=
  "TypeError: ping() missing 1 required keyword-only argument: \x27kwargs\x27"

/-- The diagnostic trace Python produces when `ping` receives a keyword
argument it does not accept. -/
def ping_unexpected_kwarg_trace : String :=
  "TypeError: ping() got an unexpected keyword argument"

/-- `SimpleJsonRpcServer.ping`, with Python call semantics made explicit.
Its header is `def ping(self, *args, kwargs)` — `kwargs` is a keyword-only
parameter with no default, not a `**kwargs` catch-all — so any positional
arguments are absorbed by `*args`, a keyword argument other than `kwargs`
raises `TypeError`, a call without a `kwargs=` binding raises `TypeError`,
and only a call supplying `kwargs=` reaches the body and returns "pong". -/
def ping_call (args : List JVal) (kwargs : List (String × JVal)) :
    Except PyExc JVal :=
  if kwargs.any (fun p => p.1 != "kwargs") then
    .error (.other ping_unexpected_kwarg_trace)
  else
    match args, kwargs.find? (fun p => p.1 == "kwargs") with
    | _, some _ => .ok (.str "pong")
    | _, none => .error (.other ping_missing_kwargs_trace)

/-- The bound method `self.ping` as an entry of the handler registry. -/
def ping_handler : Handler :=
  fun args kwargs => (ping_call args kwargs).map HandlerOut.val

/-- The registry a fresh server starts with:
`self.urls = \x7b'ping': self.ping\x7d`. -/
def default_urls : List (String × Handler) := [("ping", ping_handler)]

/-- A sample user handler, as installed by the `register` decorator:
returns its positional arguments as an array. -/
def echo_handler : Handler :=
  fun args _ => .ok (.val (.arr args))

/-- The diagnostic trace of the sample failing handler below. -/
def boom_trace : String :=
  "Traceback (most recent call last): ValueError: boom"

/-- A sample user handler that raises an exception that is not a
`SimpleJsonRpcError`. -/
def boom_handler : Handler :=
  fun _ _ => .error (.other boom_trace)

/-- A registry after two `register` calls on a fresh server. -/
def sample_urls : List (String × Handler) :=
  [("ping", ping_handler), ("echo", echo_handler), ("boom", boom_handler)]

/-- What the introspection path reads off a registered handler: its name,
`str(signature(handler))`, and its docstring when it has one. -/
structure MethodInfo where
  name : String
  sig : String
  doc : Option String

/-- One block of the introspection listing: the signature line
`n + str(signature(v))`, an underline of `-` of the same length, and the
stripped docstring (or "No docstring"). -/
def method_block (m : MethodInfo) : String :=
  let fdesc := m.name ++ m.sig
  let fdoc := match m.doc with
    | some d => d.trim
    | none => "No docstring"
  fdesc ++ "\n" ++ String.mk (List.replicate fdesc.length (Char.ofNat 45)) ++
    "\n" ++ fdoc

/-- `SimpleJsonRpcServer.__return_jrpc_methods_list`: the plain-text body of
the GET response — empty when `show_api` is off, otherwise the method
blocks joined by a blank line. -/
def return_jrpc_methods_list (show_api : Bool) (methods : List MethodInfo) :
    String :=
  if !show_api then ""
  else String.intercalate "\n\n" (methods.map method_block)

/-- The introspection data of a fresh server: only the bound method
`self.ping`, whose signature is `(*args, kwargs)` and which has no
docstring. -/
def default_methods : List MethodInfo :=
  [⟨"ping", "(*args, kwargs)", none⟩]

/-- A Python value held in the client's `service_url` slot. After
`__getattr__` runs `self.__class__(params)`, the slot holds the dict
`dict(self.__dict__, service_name=name)` instead of a URL string. -/
inductive PyAttrVal where
  | strV (s : String)
  | dictV (version : String) (service_url : PyAttrVal)
      (service_name : Option String) (headers : List (String × String))

/-- `SimpleJsonRpcClient` instance state: the four attributes set by
`__init__`. -/
structure SimpleJsonRpcClient where
  version : String
  service_url : PyAttrVal
  service_name : Option String
  headers : List (String × String)

/-- The default headers `\x7b'Content-Type': 'application/json'\x7d`. -/
def default_headers : List (String × String) :=
  [("Content-Type", "application/json")]

/-- `SimpleJsonRpcClient.__getattr__(name)`: extends the dotted name, then
calls `self.__class__(params)` — the dict `params` is passed as the single
positional argument, so it lands in the `service_url` parameter and the new
instance gets `service_name=None`, `version='2.0'` and the default
headers. -/
def client_getattr (c : SimpleJsonRpcClient) (name : String) :
    SimpleJsonRpcClient :=
  let composed := match c.service_name with
    | some s => s ++ "." ++ name
    | none => name
  let params := PyAttrVal.dictV c.version c.service_url (some composed)
    c.headers
  ⟨"2.0", params, none, default_headers⟩

/-- A Python value passed as a call argument to `send_request`. -/
inductive PyParam where
  | intV (n : Int)
  | strV (s : String)
  | bytesV (b : String)

/-- `s.decode("utf-8")`: only a `bytes` object has a `decode` method; on an
`int` or a `str` the attribute access raises `AttributeError`. -/
def py_decode_utf8 : PyParam → Except PyExc String
  | .bytesV b => .ok b
  | .intV _ =>
      .error (.other "AttributeError: \x27int\x27 object has no attribute \x27decode\x27")
  | .strV _ =>
      .error (.other "AttributeError: \x27str\x27 object has no attribute \x27decode\x27")

/-- The params computation of `SimpleJsonRpcClient.send_request`:
`params = kwargs if len(kwargs) else args` (iterating the kwargs dict
yields its keys), then `params = list(map(lambda s: s.decode("utf-8"),
params))`, which raises as soon as an element has no `decode` method. -/
def send_request_params (args : List PyParam)
    (kwargs : List (String × PyParam)) : Except PyExc (List String) :=
  let params : List PyParam :=
    if kwargs.length != 0 then kwargs.map (fun p => PyParam.strV p.1)
    else args
  params.mapM py_decode_utf8

/-- A freshly constructed client,
`SimpleJsonRpcClient('/json-rpc/')`. -/
def base_client : SimpleJsonRpcClient :=
  ⟨"2.0", .strV "/json-rpc/", none, default_headers⟩

/-- A request with truthy method, version and id but no `params` member. -/
def req_no_params : Req :=
  [("method", .str "ping"), ("version", .str "2.0"), ("id", .str "1")]

/-- A request whose `params` is the truthy scalar `true`. -/
def req_scalar_params : Req :=
  [("params", .bool true), ("method", .str "ping"), ("version", .str "2.0"),
   ("id", .str "7")]

/-- A request whose `params` is the falsy scalar `0`. -/
def req_zero_params : Req :=
  [("params", .num 0), ("method", .str "ping"), ("version", .str "2.0"),
   ("id", .str "3")]

/-- A well-formed request for the sample `echo` handler. -/
def req_echo : Req :=
  [("params", .arr [.num 1]), ("method", .str "echo"),
   ("version", .str "2.0"), ("id", .str "a")]

/-- A well-formed request for the sample failing handler. -/
def req_boom : Req :=
  [("params", .arr [.num 1]), ("method", .str "boom"),
   ("version", .str "2.0"), ("id", .str "b")]

/-- A well-formed request naming a method no registry entry matches. -/
def req_nosuch : Req :=
  [("params", .arr [.num 1]), ("method", .str "nosuch"),
   ("version", .str "2.0"), ("id", .str "c")]

/-- Every error `__expand_params` ever raises is the invalid-parameters
error with code -32602. -/
theorem expand_params_error_shape (v : JVal) (e : SimpleJsonRpcError)
    (h : expand_params v = .error e) :
    e = ⟨"Invalid method parameters", -32602⟩ := by
  unfold expand_params at h
  split at h
  · exact absurd h (by simp)
  · split at h
    · exact absurd h (by simp)
    · exact absurd h (by simp)
    · exact (Except.error.inj h).symm

/-- Claim C1, counterexample: a decoded request with truthy `method`,
`version` and `id` but no `params` at all IS rejected with code -32600,
refuting the claim that such a request passes presence validation and
proceeds to handler lookup. -/
theorem c1_counterexample :
    err_code (process_request default_urls req_no_params) = some (-32600) := by
  rfl

/-- Claim C1, amended: presence validation is conjunctive, not
disjunctive — `all([args or kwargs, handler_name, protocol, tid])` passes
exactly when the expanded params are non-empty AND `method`, `protocol`
and `id` are all truthy; whenever that conjunction fails after a
successful expansion, `process_request` answers with code -32600. -/
theorem c1_validation_conjunctive :
    (∀ (args : List JVal) (kwargs : List (String × JVal)) (m p t : JVal),
      valid_request args kwargs m p t = true ↔
        ((args ≠ [] ∨ kwargs ≠ []) ∧ truthy m = true ∧ truthy p = true ∧
          truthy t = true)) ∧
    (∀ (urls : List (String × Handler)) (items : Req) (args : List JVal)
        (kwargs : List (String × JVal)),
      expand_params (jget items "params") = .ok (args, kwargs) →
      valid_request args kwargs (jget items "method") (jget items "version")
        (jget items "id") = false →
      err_code (process_request urls items) = some (-32600)) := by
  constructor
  · intro args kwargs m p t
    simp [valid_request, List.isEmpty_eq_false, and_assoc]
  · intro urls items args kwargs hx hv
    simp [process_request, hx, hv, err_code]

/-- Claim C1, witness: the amended rule applied to the concrete
params-less request, which validation rejects with -32600. -/
theorem c1_validation_conjunctive_witness :
    err_code (process_request default_urls req_no_params) = some (-32600) :=
  c1_validation_conjunctive.2 default_urls req_no_params [] [] rfl rfl

/-- Claim C4, counterexample: the falsy scalar `0` passes normalization as
an absent params value, and a request carrying it is not answered with
-32602, refuting the claim that every scalar params fails with -32602. -/
theorem c4_counterexample :
    expand_params (.num 0) = .ok ([], []) ∧
    err_code (process_request default_urls req_zero_params) ≠
      some (-32602) := by
  exact ⟨rfl, by decide⟩

/-- Claim C4, amended: every TRUTHY params value that is neither a
sequence nor a mapping is rejected by normalization with code -32602, and
any normalization failure makes `process_request` answer -32602; falsy
scalars are instead treated as absent params. -/
theorem c4_truthy_scalar_rejected :
    (∀ v : JVal, truthy v = true → (∀ xs, v ≠ .arr xs) →
      (∀ fs, v ≠ .obj fs) →
      expand_params v = .error ⟨"Invalid method parameters", -32602⟩) ∧
    (∀ (urls : List (String × Handler)) (items : Req)
        (e : SimpleJsonRpcError),
      expand_params (jget items "params") = .error e →
      err_code (process_request urls items) = some (-32602)) := by
  constructor
  · intro v hv ha ho
    cases v with
    | null => simp [truthy] at hv
    | bool b =>
      cases b with
      | false => simp [truthy] at hv
      | true => rfl
    | num n => simp [expand_params, hv]
    | str s => simp [expand_params, hv]
    | arr xs => exact absurd rfl (ha xs)
    | obj fs => exact absurd rfl (ho fs)
  · intro urls items e hx
    have he := expand_params_error_shape _ _ hx
    subst he
    simp [process_request, hx, err_code, SimpleJsonRpcError.json_rpc_format]

/-- Claim C4, witness: the amended rule applied to the truthy scalar `5`
and to the concrete request whose params is `true`. -/
theorem c4_truthy_scalar_rejected_witness :
    expand_params (.num 5) = .error ⟨"Invalid method parameters", -32602⟩ ∧
    err_code (process_request default_urls req_scalar_params) =
      some (-32602) :=
  ⟨c4_truthy_scalar_rejected.1 (.num 5) rfl (fun _ h => nomatch h)
      (fun _ h => nomatch h),
   c4_truthy_scalar_rejected.2 default_urls req_scalar_params
      ⟨"Invalid method parameters", -32602⟩ rfl⟩

/-- Claim C5: every falsy params value (null, 0, "", false, [], and the
empty object) normalizes to empty positional and named arguments, and
normalization rejects exactly the truthy values that are neither a
sequence nor a mapping. -/
theorem c5_falsy_params_absent :
    (∀ v : JVal, truthy v = false → expand_params v = .ok ([], [])) ∧
    (expand_params (.num 0) = .ok ([], []) ∧
      expand_params (.str "") = .ok ([], []) ∧
      expand_params (.bool false) = .ok ([], []) ∧
      expand_params (.arr []) = .ok ([], []) ∧
      expand_params (.obj []) = .ok ([], []) ∧
      expand_params .null = .ok ([], [])) ∧
    (∀ v : JVal, (∃ e, expand_params v = .error e) ↔
      (truthy v = true ∧ (∀ xs, v ≠ .arr xs) ∧ (∀ fs, v ≠ .obj fs))) := by
  refine ⟨?_, ⟨rfl, rfl, rfl, rfl, rfl, rfl⟩, ?_⟩
  · intro v hv
    simp [expand_params, hv]
  · intro v
    cases v with
    | null => simp [expand_params, truthy]
    | bool b => cases b <;> simp [expand_params, truthy]
    | num n => by_cases hn : n = 0 <;> simp [expand_params, truthy, hn]
    | str s => by_cases hs : s = "" <;> simp [expand_params, truthy, hs]
    | arr xs =>
      cases xs with
      | nil => simp [expand_params, truthy]
      | cons x xs =>
        constructor
        · rintro ⟨e, he⟩
          simp [expand_params, truthy] at he
        · rintro ⟨-, ha, -⟩
          exact absurd rfl (ha (x :: xs))
    | obj fs =>
      cases fs with
      | nil => simp [expand_params, truthy]
      | cons f fs =>
        constructor
        · rintro ⟨e, he⟩
          simp [expand_params, truthy] at he
        · rintro ⟨-, -, ho⟩
          exact absurd rfl (ho (f :: fs))

/-- Claim C5, witness: the falsy-absent rule applied to the scalar `0`. -/
theorem c5_falsy_params_absent_witness :
    expand_params (.num 0) = .ok ([], []) :=
  c5_falsy_params_absent.1 (.num 0) rfl

/-- Claim C6, counterexample: for a request whose params is the scalar
`true` and whose `method` is the parseable string "ping", the -32602 error
response carries `None` for protocol, id AND method — the parseable fields
are not propagated, refuting the final clause of the claim. -/
theorem c6_counterexample :
    jget req_scalar_params "method" = .str "ping" ∧
    process_request default_urls req_scalar_params =
      .envelope ⟨.null, .null, .null, .null, .null,
        some ⟨-32602, "Invalid method parameters"⟩⟩ :=
  ⟨rfl, rfl⟩

/-- Claim C6, amended: params normalization runs before field extraction
and handler lookup, so a params-shape failure produces the same -32602
response whatever the registry contains (never -32601), and that error
response carries null protocol, id and method regardless of what the
request held. -/
theorem c6_expand_failure_response :
    (∀ (urls urlsB : List (String × Handler)) (items : Req),
      (∃ e, expand_params (jget items "params") = .error e) →
      process_request urls items = process_request urlsB items) ∧
    (∀ (urls : List (String × Handler)) (items : Req)
        (e : SimpleJsonRpcError),
      expand_params (jget items "params") = .error e →
      process_request urls items =
        .envelope ⟨.null, .null, .null, .null, .null,
          some e.json_rpc_format⟩) := by
  constructor
  · rintro urls urlsB items ⟨e, he⟩
    simp [process_request, he]
  · intro urls items e he
    simp [process_request, he]

/-- Claim C6, witness: the amended rule applied to the concrete
scalar-params request, against both the default and the empty registry. -/
theorem c6_expand_failure_response_witness :
    process_request default_urls req_scalar_params =
      process_request [] req_scalar_params ∧
    process_request default_urls req_scalar_params =
      .envelope ⟨.null, .null, .null, .null, .null,
        some ⟨-32602, "Invalid method parameters"⟩⟩ :=
  ⟨c6_expand_failure_response.1 default_urls [] req_scalar_params
      ⟨⟨"Invalid method parameters", -32602⟩, rfl⟩,
   c6_expand_failure_response.2 default_urls req_scalar_params
      ⟨"Invalid method parameters", -32602⟩ rfl⟩

/-- Claim C7: the batch branch of `prepare_request` returns one response
per array element, in array order, each equal to what dispatching that
element alone produces; concretely, a two-element batch whose second
handler raises yields exactly one -32603 item while the sibling succeeds
unchanged. -/
theorem c7_batch_order_isolation :
    (∀ (urls : List (String × Handler)) (items : List Req),
      (batch_process urls items).length = items.length) ∧
    (∀ (urls : List (String × Handler)) (items : List Req) (i : Nat),
      (batch_process urls items)[i]? =
        items[i]?.map (process_request urls)) ∧
    (batch_process sample_urls [req_echo, req_boom] =
      [.envelope ⟨.str "2.0", .str "a", .null, .str "echo", .arr [.num 1],
          none⟩,
       .envelope ⟨.str "2.0", .str "b", .null, .str "boom", .null,
          some ⟨-32603, boom_trace⟩⟩] ∧
      batch_process sample_urls [req_echo, req_boom] =
        [process_request sample_urls req_echo,
         process_request sample_urls req_boom]) := by
  refine ⟨?_, ?_, rfl, rfl⟩
  · intro urls items
    simp [batch_process]
  · intro urls items i
    simp [batch_process, List.getElem?_map]

/-- Claim C8: any handler exception that is not a `SimpleJsonRpcError` is
wrapped into an error response with code -32603 carrying the diagnostic
trace as its message, while a `SimpleJsonRpcError` raised by the handler
keeps its own code and message; in both cases `process_request` returns a
response envelope instead of propagating the exception. -/
theorem c8_catch_all_wraps :
    (∀ (urls : List (String × Handler)) (items : Req) (args : List JVal)
        (kwargs : List (String × JVal)) (h : Handler) (trace : String),
      expand_params (jget items "params") = .ok (args, kwargs) →
      valid_request args kwargs (jget items "method") (jget items "version")
        (jget items "id") = true →
      lookup_handler urls (jget items "method") = some h →
      h args kwargs = .error (.other trace) →
      process_request urls items =
        .envelope ⟨jget items "version", jget items "id", .null,
          jget items "method", .null, some ⟨-32603, trace⟩⟩) ∧
    (∀ (urls : List (String × Handler)) (items : Req) (args : List JVal)
        (kwargs : List (String × JVal)) (h : Handler)
        (e : SimpleJsonRpcError),
      expand_params (jget items "params") = .ok (args, kwargs) →
      valid_request args kwargs (jget items "method") (jget items "version")
        (jget items "id") = true →
      lookup_handler urls (jget items "method") = some h →
      h args kwargs = .error (.rpcErr e) →
      process_request urls items =
        .envelope ⟨jget items "version", jget items "id", .null,
          jget items "method", .null, some e.json_rpc_format⟩) := by
  constructor
  · intro urls items args kwargs h trace hx hv hl hh
    simp [process_request, hx, hv, hl, hh]
  · intro urls items args kwargs h e hx hv hl hh
    simp [process_request, hx, hv, hl, hh]

/-- Claim C8, witness: the concrete failing handler is wrapped into a
-32603 response. -/
theorem c8_catch_all_wraps_witness :
    process_request sample_urls req_boom =
      .envelope ⟨.str "2.0", .str "b", .null, .str "boom", .null,
        some ⟨-32603, boom_trace⟩⟩ :=
  c8_catch_all_wraps.1 sample_urls req_boom [.num 1] [] boom_handler
    boom_trace rfl rfl rfl rfl

/-- Claim C9: a well-formed request naming a method absent from the
registry is answered with code -32601, a message naming the missing
method, and a null result; and the registry lookup misses exactly when no
registered name is character-for-character equal to the requested one —
exact match, case-sensitive, no fallback. -/
theorem c9_method_not_found :
    (∀ (urls : List (String × Handler)) (items : Req) (args : List JVal)
        (kwargs : List (String × JVal)) (name : String),
      expand_params (jget items "params") = .ok (args, kwargs) →
      jget items "method" = .str name →
      valid_request args kwargs (.str name) (jget items "version")
        (jget items "id") = true →
      lookup_handler urls (.str name) = none →
      process_request urls items =
        .envelope ⟨jget items "version", jget items "id", .null, .str name,
          .null,
          some ⟨-32601, "JSON-RPC: Method \"" ++ name ++ "\" not found"⟩⟩) ∧
    (∀ (urls : List (String × Handler)) (name : String),
      lookup_handler urls (.str name) = none ↔
        ∀ p ∈ urls, p.1 ≠ name) := by
  constructor
  · intro urls items args kwargs name hx hm hv hl
    simp [process_request, hx, hm, hv, hl, pyStr]
  · intro urls name
    have hdef : lookup_handler urls (.str name) =
        (urls.find? (fun p => p.1 == name)).map (fun p => p.2) := rfl
    rw [hdef, Option.map_eq_none', List.find?_eq_none]
    constructor
    · intro h p hp he
      exact h p hp (by simp [he])
    · intro h p hp hb
      exact h p hp (by simpa using hb)

/-- Claim C9, witness: a concrete request naming "nosuch" against the
default registry. -/
theorem c9_method_not_found_witness :
    process_request default_urls req_nosuch =
      .envelope ⟨.str "2.0", .str "c", .null, .str "nosuch", .null,
        some ⟨-32601, "JSON-RPC: Method \"nosuch\" not found"⟩⟩ :=
  c9_method_not_found.1 default_urls req_nosuch [.num 1] [] "nosuch"
    rfl rfl rfl rfl

/-- Claim C3: `ping` is registered in every fresh registry, but — its
`kwargs` parameter being keyword-only with no default, not a `**kwargs`
catch-all — invoking it with empty positional and empty keyword arguments
raises `TypeError` instead of returning "pong"; "pong" only comes back
when a `kwargs=` binding is supplied. -/
theorem c3_ping_registered_but_fails :
    lookup_handler default_urls (.str "ping") = some ping_handler ∧
    ping_call [] [] = .error (.other ping_missing_kwargs_trace) ∧
    ping_call [] [("kwargs", .null)] = .ok (.str "pong") :=
  ⟨rfl, rfl, rfl⟩

/-- Claim C2: the dynamic client's composition is broken — `__getattr__`
passes its attribute dict positionally into `service_url`, so after
`client.a` and `client.a.b` the new proxy's `service_name` is `None`
(never "a.b"); and `send_request` maps `.decode("utf-8")` over the chosen
params, so integer positional arguments raise `AttributeError` and a
keyword-argument call iterates the dict into its key strings, which also
raise `AttributeError` — no payload with `params = [1, 2]` or
`params = \x7b"x": 1\x7d` is ever produced. -/
theorem c2_client_composition_broken :
    (client_getattr base_client "a").service_name = none ∧
    (client_getattr (client_getattr base_client "a") "b").service_name =
      none ∧
    send_request_params [.intV 1, .intV 2] [] =
      .error (.other
        "AttributeError: \x27int\x27 object has no attribute \x27decode\x27") ∧
    send_request_params [] [("x", .intV 1)] =
      .error (.other
        "AttributeError: \x27str\x27 object has no attribute \x27decode\x27") :=
  ⟨rfl, rfl, rfl, rfl⟩

/-- Claim C10: with introspection disabled the discovery body is empty;
enabled, it is one block per registered method joined by blank lines, each
block a signature line, an underline of exactly the same length, and the
description text; the default registry's listing shows its single `ping`
entry. -/
theorem c10_discovery_listing :
    (∀ methods, return_jrpc_methods_list false methods = "") ∧
    (∀ methods, return_jrpc_methods_list true methods =
      String.intercalate "\n\n" (methods.map method_block)) ∧
    (∀ m : MethodInfo, ∃ underline : String,
      method_block m = (m.name ++ m.sig) ++ "\n" ++ underline ++ "\n" ++
          (match m.doc with | some d => d.trim | none => "No docstring") ∧
        underline.length = (m.name ++ m.sig).length) ∧
    (return_jrpc_methods_list true default_methods =
      "ping(*args, kwargs)\n-------------------\nNo docstring") := by
  refine ⟨fun _ => rfl, fun _ => rfl, ?_, ?_⟩
  · intro m
    refine ⟨String.mk (List.replicate (m.name ++ m.sig).length
      (Char.ofNat 45)), rfl, ?_⟩
    exact List.length_replicate _ _
  · rfl

end SimpleJsonRpc
